import Mathlib

/-
Verification of the tag-driven dispatch core in
torch/csrc/jit/fuser/common/dispatch.cpp.

The C++ code routes a generic call on an IR node (Statement, split into the
Val and Expr categories) to the correct overload of an externally supplied
handler object, by switching on runtime type tags and static-downcasting.
We embed the dispatch functions shallowly: each C++ switch becomes a Lean
match on the node's tag fields, each handler object becomes a record with
one field per overload, and the fatal TORCH_INTERNAL_ASSERT on an
unrecognized tag becomes an Except.error result.  A static_cast that picks
an overload is modelled by calling the record field of the cast target type
with the (unchanged) node.
-/

namespace Fuser

/-- Kind tags for Val nodes, as consumed by the dispatch switch.  The
OutsideEnum constructor models a tag value outside the declared
enumeration (the test-only escape hatch of spec Scenario C); the C++ switch
sends any such value to its default branch. -/
inductive ValType where
  | IterDomain
  | TensorDomain
  | Tensor
  | TensorView
  | Scalar
  | OutsideEnum
  deriving DecidableEq

/-- Secondary tags for Scalar-kind Val nodes. -/
inductive DataType where
  | Float
  | Int
  | OutsideEnum
  deriving DecidableEq

/-- Kind tags for Expr nodes. -/
inductive ExprType where
  | Split
  | Merge
  | Reorder
  | UnaryOp
  | BinaryOp
  | ForLoop
  | IfThenElse
  deriving DecidableEq

/-- Tag outside the Expr enumeration, modelled as a separate wrapper so the
dispatch default branch is reachable.  We keep one extra constructor. -/
inductive ExprTag where
  | known (t : ExprType)
  | outsideEnum
  deriving DecidableEq

/-- A Val node: its kind tag (getValType), its secondary tag
(getDataType, consulted only when the kind is Scalar), and a name field
standing for all remaining node state that a real IR node carries and that
the dispatcher must not consult. -/
structure Val where
  valType : ValType
  dataType : DataType
  name : Nat
  deriving DecidableEq

/-- An Expr node: its kind tag (getExprType) and a name field standing for
the remaining node state. -/
structure Expr where
  exprTag : ExprTag
  name : Nat
  deriving DecidableEq

/-- A Statement node: the category queries isVal and isExpr, and the views
obtained by static_cast to Val* and to Expr*.  Keeping the two flags as
independent fields lets us state what the code does when the external
mutual-exclusion invariant is violated. -/
structure Statement where
  is_val : Bool
  is_expr : Bool
  valView : Val
  exprView : Expr
  deriving DecidableEq

/-- Wrap a Val as a Statement, as the IR builder would: isVal true,
isExpr false, the Val view is the node itself. -/
def Statement.ofVal (v : Val) : Statement :=
  { is_val := true, is_expr := false, valView := v,
    exprView := { exprTag := ExprTag.known ExprType.Split, name := 0 } }

/-- Wrap an Expr as a Statement: isVal false, isExpr true, the Expr view is
the node itself. -/
def Statement.ofExpr (e : Expr) : Statement :=
  { is_val := false, is_expr := true,
    valView := { valType := ValType.IterDomain, dataType := DataType.Float, name := 0 },
    exprView := e }

/-- The two forms in which C++ passes the handler template argument: by
value (T) and by pointer (T*).  The explicit template instantiations at the
bottom of dispatch.cpp instantiate every dispatch entry at both forms. -/
inductive HandlerArg (α : Type) where
  | direct (h : α)
  | indirect (h : α)

/-- The ptr helper of dispatch.cpp: both overloads normalize to the
underlying handler object, so switch bodies never special-case the form. -/
def ptr {α : Type} : HandlerArg α → α
  | HandlerArg.direct h => h
  | HandlerArg.indirect h => h

/-- A visiting handler: one field per handle overload.  The C++ overloads
return void and act by side effect; we observe them through their result
value of type α.  Each field may itself abort (Except.error), as a C++
handler body may. -/
structure Handler (α : Type) where
  handleStatement : Statement → Except String α
  handleVal : Val → Except String α
  handleExpr : Expr → Except String α
  handleIterDomain : Val → Except String α
  handleTensorDomain : Val → Except String α
  handleTensor : Val → Except String α
  handleTensorView : Val → Except String α
  handleFloat : Val → Except String α
  handleInt : Val → Except String α
  handleSplit : Expr → Except String α
  handleMerge : Expr → Except String α
  handleReorder : Expr → Except String α
  handleUnaryOp : Expr → Except String α
  handleBinaryOp : Expr → Except String α
  handleForLoop : Expr → Except String α
  handleIfThenElse : Expr → Except String α

/-- A const-visiting handler: the overload family taking const node
pointers.  In this pure embedding every field is a function of the node
value, so no field can alter the node; the record has no mutating member
at all. -/
structure ConstHandler (α : Type) where
  handleStatement : Statement → Except String α
  handleVal : Val → Except String α
  handleExpr : Expr → Except String α
  handleIterDomain : Val → Except String α
  handleTensorDomain : Val → Except String α
  handleTensor : Val → Except String α
  handleTensorView : Val → Except String α
  handleFloat : Val → Except String α
  handleInt : Val → Except String α
  handleSplit : Expr → Except String α
  handleMerge : Expr → Except String α
  handleReorder : Expr → Except String α
  handleUnaryOp : Expr → Except String α
  handleBinaryOp : Expr → Except String α
  handleForLoop : Expr → Except String α
  handleIfThenElse : Expr → Except String α

/-- A mutating handler: one field per mutate overload, each returning a
replacement Statement (or aborting). -/
structure Mutator where
  mutateStatement : Statement → Except String Statement
  mutateVal : Val → Except String Statement
  mutateExpr : Expr → Except String Statement
  mutateIterDomain : Val → Except String Statement
  mutateTensorDomain : Val → Except String Statement
  mutateTensor : Val → Except String Statement
  mutateTensorView : Val → Except String Statement
  mutateFloat : Val → Except String Statement
  mutateInt : Val → Except String Statement
  mutateSplit : Expr → Except String Statement
  mutateMerge : Expr → Except String Statement
  mutateReorder : Expr → Except String Statement
  mutateUnaryOp : Expr → Except String Statement
  mutateBinaryOp : Expr → Except String Statement
  mutateForLoop : Expr → Except String Statement
  mutateIfThenElse : Expr → Except String Statement

/-- Val::dispatch (dispatch.cpp lines 42 to 72): switch on the ValType, for
Scalar a nested switch on the DataType; an unrecognized tag in either
switch falls through to the TORCH_INTERNAL_ASSERT. -/
def Val.dispatch {α : Type} (handler : HandlerArg (Handler α)) (val : Val) :
    Except String α :=
  match val.valType with
  | ValType.IterDomain => (ptr handler).handleIterDomain val
  | ValType.TensorDomain => (ptr handler).handleTensorDomain val
  | ValType.Tensor => (ptr handler).handleTensor val
  | ValType.TensorView => (ptr handler).handleTensorView val
  | ValType.Scalar =>
    match val.dataType with
    | DataType.Float => (ptr handler).handleFloat val
    | DataType.Int => (ptr handler).handleInt val
    | DataType.OutsideEnum => Except.error "Unknown valtype in dispatch!"
  | ValType.OutsideEnum => Except.error "Unknown valtype in dispatch!"

/-- Expr::dispatch (lines 74 to 101): switch on the ExprType; the default
branch is the TORCH_INTERNAL_ASSERT. -/
def Expr.dispatch {α : Type} (handler : HandlerArg (Handler α)) (expr : Expr) :
    Except String α :=
  match expr.exprTag with
  | ExprTag.known ExprType.Split => (ptr handler).handleSplit expr
  | ExprTag.known ExprType.Merge => (ptr handler).handleMerge expr
  | ExprTag.known ExprType.Reorder => (ptr handler).handleReorder expr
  | ExprTag.known ExprType.UnaryOp => (ptr handler).handleUnaryOp expr
  | ExprTag.known ExprType.BinaryOp => (ptr handler).handleBinaryOp expr
  | ExprTag.known ExprType.ForLoop => (ptr handler).handleForLoop expr
  | ExprTag.known ExprType.IfThenElse => (ptr handler).handleIfThenElse expr
  | ExprTag.outsideEnum => Except.error "Unknown exprtype in dispatch!"

/-- Statement::dispatch (lines 103 to 111): test isVal first, then isExpr,
and call the handler's Val-level or Expr-level overload on the cast view;
if neither test holds, assert. -/
def Statement.dispatch {α : Type} (handler : HandlerArg (Handler α))
    (stmt : Statement) : Except String α :=
  match stmt.is_val, stmt.is_expr with
  | true, _ => (ptr handler).handleVal stmt.valView
  | false, true => (ptr handler).handleExpr stmt.exprView
  | false, false => Except.error "Unknown stmttype in dispatch!"

/-- Val::const_dispatch (lines 113 to 143): same switch as Val::dispatch
over the const overload family. -/
def Val.const_dispatch {α : Type} (handler : HandlerArg (ConstHandler α))
    (val : Val) : Except String α :=
  match val.valType with
  | ValType.IterDomain => (ptr handler).handleIterDomain val
  | ValType.TensorDomain => (ptr handler).handleTensorDomain val
  | ValType.Tensor => (ptr handler).handleTensor val
  | ValType.TensorView => (ptr handler).handleTensorView val
  | ValType.Scalar =>
    match val.dataType with
    | DataType.Float => (ptr handler).handleFloat val
    | DataType.Int => (ptr handler).handleInt val
    | DataType.OutsideEnum => Except.error "Unknown valtype in dispatch!"
  | ValType.OutsideEnum => Except.error "Unknown valtype in dispatch!"

/-- Expr::const_dispatch (lines 145 to 172). -/
def Expr.const_dispatch {α : Type} (handler : HandlerArg (ConstHandler α))
    (expr : Expr) : Except String α :=
  match expr.exprTag with
  | ExprTag.known ExprType.Split => (ptr handler).handleSplit expr
  | ExprTag.known ExprType.Merge => (ptr handler).handleMerge expr
  | ExprTag.known ExprType.Reorder => (ptr handler).handleReorder expr
  | ExprTag.known ExprType.UnaryOp => (ptr handler).handleUnaryOp expr
  | ExprTag.known ExprType.BinaryOp => (ptr handler).handleBinaryOp expr
  | ExprTag.known ExprType.ForLoop => (ptr handler).handleForLoop expr
  | ExprTag.known ExprType.IfThenElse => (ptr handler).handleIfThenElse expr
  | ExprTag.outsideEnum => Except.error "Unknown exprtype in dispatch!"

/-- Statement::const_dispatch (lines 174 to 182). -/
def Statement.const_dispatch {α : Type} (handler : HandlerArg (ConstHandler α))
    (stmt : Statement) : Except String α :=
  match stmt.is_val, stmt.is_expr with
  | true, _ => (ptr handler).handleVal stmt.valView
  | false, true => (ptr handler).handleExpr stmt.exprView
  | false, false => Except.error "Unknown stmttype in dispatch!"

/-- Val::mutator_dispatch (lines 195 to 219): same switch, but each branch
returns the result of the mutate overload for the cast target. -/
def Val.mutator_dispatch (mutator : HandlerArg Mutator) (val : Val) :
    Except String Statement :=
  match val.valType with
  | ValType.IterDomain => (ptr mutator).mutateIterDomain val
  | ValType.TensorDomain => (ptr mutator).mutateTensorDomain val
  | ValType.Tensor => (ptr mutator).mutateTensor val
  | ValType.TensorView => (ptr mutator).mutateTensorView val
  | ValType.Scalar =>
    match val.dataType with
    | DataType.Float => (ptr mutator).mutateFloat val
    | DataType.Int => (ptr mutator).mutateInt val
    | DataType.OutsideEnum => Except.error "Unknown valtype in dispatch!"
  | ValType.OutsideEnum => Except.error "Unknown valtype in dispatch!"

/-- Expr::mutator_dispatch (lines 221 to 241).  Note line 237 of the
source: the ExprType::IfThenElse case performs
static_cast to ForLoop pointer, so overload resolution selects the
mutate(ForLoop*) overload for an IfThenElse-tagged node.  We embed that
faithfully: the IfThenElse arm calls mutateForLoop. -/
def Expr.mutator_dispatch (mutator : HandlerArg Mutator) (expr : Expr) :
    Except String Statement :=
  match expr.exprTag with
  | ExprTag.known ExprType.Split => (ptr mutator).mutateSplit expr
  | ExprTag.known ExprType.Merge => (ptr mutator).mutateMerge expr
  | ExprTag.known ExprType.Reorder => (ptr mutator).mutateReorder expr
  | ExprTag.known ExprType.UnaryOp => (ptr mutator).mutateUnaryOp expr
  | ExprTag.known ExprType.BinaryOp => (ptr mutator).mutateBinaryOp expr
  | ExprTag.known ExprType.ForLoop => (ptr mutator).mutateForLoop expr
  | ExprTag.known ExprType.IfThenElse => (ptr mutator).mutateForLoop expr
  | ExprTag.outsideEnum => Except.error "Unknown exprtype in dispatch!"

/-- Statement::mutator_dispatch (lines 243 to 252). -/
def Statement.mutator_dispatch (mutator : HandlerArg Mutator)
    (stmt : Statement) : Except String Statement :=
  match stmt.is_val, stmt.is_expr with
  | true, _ => (ptr mutator).mutateVal stmt.valView
  | false, true => (ptr mutator).mutateExpr stmt.exprView
  | false, false => Except.error "Unknown stmttype in dispatch!"

/-- OptOutDispatch::handle wiring (lines 298 to 306): the base class's own
handle(Statement*), handle(Val*) and handle(Expr*) call back into the
generic dispatchers on the same object.  Since the dispatchers never
consult the generic fields of the object they receive (only the per-kind
fields and, at Statement level, the Val and Expr level fields), wiring with
the pre-wire record is observationally exact.  OptInDispatch::handle
(lines 308 to 316) is the identical wiring. -/
def optOutWire {α : Type} (h : Handler α) : Handler α :=
  let wired : Handler α :=
    { h with
      handleVal := fun v => Val.dispatch (HandlerArg.direct h) v,
      handleExpr := fun e => Expr.dispatch (HandlerArg.direct h) e }
  { wired with
    handleStatement := fun s => Statement.dispatch (HandlerArg.direct wired) s }

/-- OptInConstDispatch::handle wiring (lines 318 to 326). -/
def optInConstWire {α : Type} (h : ConstHandler α) : ConstHandler α :=
  let wired : ConstHandler α :=
    { h with
      handleVal := fun v => Val.const_dispatch (HandlerArg.direct h) v,
      handleExpr := fun e => Expr.const_dispatch (HandlerArg.direct h) e }
  { wired with
    handleStatement := fun s =>
      Statement.const_dispatch (HandlerArg.direct wired) s }

/-- OptOutMutator::mutate wiring (lines 328 to 336). -/
def optOutMutWire (m : Mutator) : Mutator :=
  let wired : Mutator :=
    { m with
      mutateVal := fun v => Val.mutator_dispatch (HandlerArg.direct m) v,
      mutateExpr := fun e => Expr.mutator_dispatch (HandlerArg.direct m) e }
  { wired with
    mutateStatement := fun s =>
      Statement.mutator_dispatch (HandlerArg.direct wired) s }

/-- Labels for the concrete handler overloads, used by probe handlers to
record which overload a dispatch run selected. -/
inductive Overload where
  | onStatement
  | onVal
  | onExpr
  | onIterDomain
  | onTensorDomain
  | onTensor
  | onTensorView
  | onFloat
  | onInt
  | onSplit
  | onMerge
  | onReorder
  | onUnaryOp
  | onBinaryOp
  | onForLoop
  | onIfThenElse
  deriving DecidableEq

/-- A probe handler: every overload reports its own label, ignoring the
node, so the dispatch result is exactly the identity of the selected
overload. -/
def probe : Handler Overload :=
  { handleStatement := fun _ => Except.ok Overload.onStatement,
    handleVal := fun _ => Except.ok Overload.onVal,
    handleExpr := fun _ => Except.ok Overload.onExpr,
    handleIterDomain := fun _ => Except.ok Overload.onIterDomain,
    handleTensorDomain := fun _ => Except.ok Overload.onTensorDomain,
    handleTensor := fun _ => Except.ok Overload.onTensor,
    handleTensorView := fun _ => Except.ok Overload.onTensorView,
    handleFloat := fun _ => Except.ok Overload.onFloat,
    handleInt := fun _ => Except.ok Overload.onInt,
    handleSplit := fun _ => Except.ok Overload.onSplit,
    handleMerge := fun _ => Except.ok Overload.onMerge,
    handleReorder := fun _ => Except.ok Overload.onReorder,
    handleUnaryOp := fun _ => Except.ok Overload.onUnaryOp,
    handleBinaryOp := fun _ => Except.ok Overload.onBinaryOp,
    handleForLoop := fun _ => Except.ok Overload.onForLoop,
    handleIfThenElse := fun _ => Except.ok Overload.onIfThenElse }

/-- The const counterpart of the probe handler. -/
def constProbe : ConstHandler Overload :=
  { handleStatement := fun _ => Except.ok Overload.onStatement,
    handleVal := fun _ => Except.ok Overload.onVal,
    handleExpr := fun _ => Except.ok Overload.onExpr,
    handleIterDomain := fun _ => Except.ok Overload.onIterDomain,
    handleTensorDomain := fun _ => Except.ok Overload.onTensorDomain,
    handleTensor := fun _ => Except.ok Overload.onTensor,
    handleTensorView := fun _ => Except.ok Overload.onTensorView,
    handleFloat := fun _ => Except.ok Overload.onFloat,
    handleInt := fun _ => Except.ok Overload.onInt,
    handleSplit := fun _ => Except.ok Overload.onSplit,
    handleMerge := fun _ => Except.ok Overload.onMerge,
    handleReorder := fun _ => Except.ok Overload.onReorder,
    handleUnaryOp := fun _ => Except.ok Overload.onUnaryOp,
    handleBinaryOp := fun _ => Except.ok Overload.onBinaryOp,
    handleForLoop := fun _ => Except.ok Overload.onForLoop,
    handleIfThenElse := fun _ => Except.ok Overload.onIfThenElse }

/-- A tracing base handler: every concrete-kind overload records one trace
entry.  The generic fields are deliberately inert; they are replaced by the
optOutWire wiring before use. -/
def traceBase : Handler (List Overload) :=
  { handleStatement := fun _ => Except.error "generic field unused",
    handleVal := fun _ => Except.error "generic field unused",
    handleExpr := fun _ => Except.error "generic field unused",
    handleIterDomain := fun _ => Except.ok [Overload.onIterDomain],
    handleTensorDomain := fun _ => Except.ok [Overload.onTensorDomain],
    handleTensor := fun _ => Except.ok [Overload.onTensor],
    handleTensorView := fun _ => Except.ok [Overload.onTensorView],
    handleFloat := fun _ => Except.ok [Overload.onFloat],
    handleInt := fun _ => Except.ok [Overload.onInt],
    handleSplit := fun _ => Except.ok [Overload.onSplit],
    handleMerge := fun _ => Except.ok [Overload.onMerge],
    handleReorder := fun _ => Except.ok [Overload.onReorder],
    handleUnaryOp := fun _ => Except.ok [Overload.onUnaryOp],
    handleBinaryOp := fun _ => Except.ok [Overload.onBinaryOp],
    handleForLoop := fun _ => Except.ok [Overload.onForLoop],
    handleIfThenElse := fun _ => Except.ok [Overload.onIfThenElse] }

/-- The tracing handler with the OptOutDispatch wiring installed. -/
def traceHandler : Handler (List Overload) := optOutWire traceBase

/-- A marker Statement, distinguishable by its name field. -/
def markerStmt (n : Nat) : Statement :=
  Statement.ofVal { valType := ValType.IterDomain, dataType := DataType.Float, name := n }

/-- A marking mutator: each mutate overload returns a marker Statement
unique to that overload, so the dispatch result identifies the overload
that produced it. -/
def markMutator : Mutator :=
  { mutateStatement := fun _ => Except.ok (markerStmt 0),
    mutateVal := fun _ => Except.ok (markerStmt 1),
    mutateExpr := fun _ => Except.ok (markerStmt 2),
    mutateIterDomain := fun _ => Except.ok (markerStmt 3),
    mutateTensorDomain := fun _ => Except.ok (markerStmt 4),
    mutateTensor := fun _ => Except.ok (markerStmt 5),
    mutateTensorView := fun _ => Except.ok (markerStmt 6),
    mutateFloat := fun _ => Except.ok (markerStmt 7),
    mutateInt := fun _ => Except.ok (markerStmt 8),
    mutateSplit := fun _ => Except.ok (markerStmt 9),
    mutateMerge := fun _ => Except.ok (markerStmt 10),
    mutateReorder := fun _ => Except.ok (markerStmt 11),
    mutateUnaryOp := fun _ => Except.ok (markerStmt 12),
    mutateBinaryOp := fun _ => Except.ok (markerStmt 13),
    mutateForLoop := fun _ => Except.ok (markerStmt 14),
    mutateIfThenElse := fun _ => Except.ok (markerStmt 15) }

/-- An IfThenElse-tagged Expr node used to exhibit the mutator cast slip. -/
def iteNode : Expr := { exprTag := ExprTag.known ExprType.IfThenElse, name := 42 }

/-- A ForLoop-tagged Expr node used for the mutate replacement scenario. -/
def forLoopNode : Expr := { exprTag := ExprTag.known ExprType.ForLoop, name := 7 }

/-- The OptOutDispatch wiring changes only the generic fields, so the
Val-level dispatcher (which reads only concrete-kind fields) is unaffected
by it. -/
theorem val_dispatch_wire_irrelevant {α : Type} (h : Handler α) (v : Val) :
    Val.dispatch (HandlerArg.direct (optOutWire h)) v
      = Val.dispatch (HandlerArg.direct h) v := by
  obtain ⟨vt, dt, n⟩ := v
  cases vt <;> cases dt <;> rfl

/-- The Expr-level dispatcher is likewise unaffected by the wiring. -/
theorem expr_dispatch_wire_irrelevant {α : Type} (h : Handler α) (e : Expr) :
    Expr.dispatch (HandlerArg.direct (optOutWire h)) e
      = Expr.dispatch (HandlerArg.direct h) e := by
  obtain ⟨et, n⟩ := e
  cases et with
  | known t => cases t <;> rfl
  | outsideEnum => rfl

/-- The Val-level const dispatcher is unaffected by the const wiring. -/
theorem val_const_dispatch_wire_irrelevant {α : Type} (h : ConstHandler α)
    (v : Val) :
    Val.const_dispatch (HandlerArg.direct (optInConstWire h)) v
      = Val.const_dispatch (HandlerArg.direct h) v := by
  obtain ⟨vt, dt, n⟩ := v
  cases vt <;> cases dt <;> rfl

/-- The Expr-level const dispatcher is unaffected by the const wiring. -/
theorem expr_const_dispatch_wire_irrelevant {α : Type} (h : ConstHandler α)
    (e : Expr) :
    Expr.const_dispatch (HandlerArg.direct (optInConstWire h)) e
      = Expr.const_dispatch (HandlerArg.direct h) e := by
  obtain ⟨et, n⟩ := e
  cases et with
  | known t => cases t <;> rfl
  | outsideEnum => rfl

/-- The Val-level mutator dispatcher is unaffected by the mutator wiring. -/
theorem val_mutator_dispatch_wire_irrelevant (m : Mutator) (v : Val) :
    Val.mutator_dispatch (HandlerArg.direct (optOutMutWire m)) v
      = Val.mutator_dispatch (HandlerArg.direct m) v := by
  obtain ⟨vt, dt, n⟩ := v
  cases vt <;> cases dt <;> rfl

/-- The Expr-level mutator dispatcher is unaffected by the mutator wiring. -/
theorem expr_mutator_dispatch_wire_irrelevant (m : Mutator) (e : Expr) :
    Expr.mutator_dispatch (HandlerArg.direct (optOutMutWire m)) e
      = Expr.mutator_dispatch (HandlerArg.direct m) e := by
  obtain ⟨et, n⟩ := e
  cases et with
  | known t => cases t <;> rfl
  | outsideEnum => rfl

/-- A concrete IterDomain-tagged Val node. -/
def iterVal : Val :=
  { valType := ValType.IterDomain, dataType := DataType.Float, name := 3 }

/-- Claim C1 (code-bug evidence): dispatching an IfThenElse-tagged Expr
through Mutate does NOT invoke the IfThenElse overload.  Line 237 of
dispatch.cpp static_casts the node to ForLoop pointer, so overload
resolution selects mutate(ForLoop*): with a mutator whose overloads return
distinct markers, the dispatch result is the ForLoop overload's result and
differs from the IfThenElse overload's result. -/
theorem mutator_ifthenelse_cast_slip :
    Expr.mutator_dispatch (HandlerArg.direct markMutator) iteNode
        = markMutator.mutateForLoop iteNode
      ∧ Expr.mutator_dispatch (HandlerArg.direct markMutator) iteNode
        ≠ markMutator.mutateIfThenElse iteNode := by
  refine ⟨rfl, ?_⟩
  intro hfalse
  simp [Expr.mutator_dispatch, markMutator, ptr, iteNode, markerStmt,
    Statement.ofVal] at hfalse

/-- Claim C2: for every kind tag in the Val enumeration (with Scalar split
into Float and Int) and every kind tag in the Expr enumeration, Visit
dispatch invokes exactly the handler overload whose static parameter type
matches that concrete kind, with the exact node passed, and never reaches
the unreachable-tag assertion. -/
theorem visit_dispatch_exhaustive {α : Type} (ha : HandlerArg (Handler α))
    (v : Val) (e : Expr) :
    (v.valType = ValType.IterDomain →
      Val.dispatch ha v = (ptr ha).handleIterDomain v)
  ∧ (v.valType = ValType.TensorDomain →
      Val.dispatch ha v = (ptr ha).handleTensorDomain v)
  ∧ (v.valType = ValType.Tensor →
      Val.dispatch ha v = (ptr ha).handleTensor v)
  ∧ (v.valType = ValType.TensorView →
      Val.dispatch ha v = (ptr ha).handleTensorView v)
  ∧ (v.valType = ValType.Scalar → v.dataType = DataType.Float →
      Val.dispatch ha v = (ptr ha).handleFloat v)
  ∧ (v.valType = ValType.Scalar → v.dataType = DataType.Int →
      Val.dispatch ha v = (ptr ha).handleInt v)
  ∧ (e.exprTag = ExprTag.known ExprType.Split →
      Expr.dispatch ha e = (ptr ha).handleSplit e)
  ∧ (e.exprTag = ExprTag.known ExprType.Merge →
      Expr.dispatch ha e = (ptr ha).handleMerge e)
  ∧ (e.exprTag = ExprTag.known ExprType.Reorder →
      Expr.dispatch ha e = (ptr ha).handleReorder e)
  ∧ (e.exprTag = ExprTag.known ExprType.UnaryOp →
      Expr.dispatch ha e = (ptr ha).handleUnaryOp e)
  ∧ (e.exprTag = ExprTag.known ExprType.BinaryOp →
      Expr.dispatch ha e = (ptr ha).handleBinaryOp e)
  ∧ (e.exprTag = ExprTag.known ExprType.ForLoop →
      Expr.dispatch ha e = (ptr ha).handleForLoop e)
  ∧ (e.exprTag = ExprTag.known ExprType.IfThenElse →
      Expr.dispatch ha e = (ptr ha).handleIfThenElse e) := by
  refine ⟨?_, ?_, ?_, ?_, ?_, ?_, ?_, ?_, ?_, ?_, ?_, ?_, ?_⟩ <;>
    intros <;> simp_all [Val.dispatch, Expr.dispatch]

/-- Witness for claim C2: a Float Scalar node dispatched to the probe
handler reports the Float overload (spec Scenario A shape). -/
theorem visit_dispatch_exhaustive_witness :
    iterVal.valType = ValType.IterDomain
      ∧ Val.dispatch (HandlerArg.direct probe) iterVal
        = Except.ok Overload.onIterDomain :=
  ⟨rfl, (visit_dispatch_exhaustive (HandlerArg.direct probe) iterVal iteNode).1 rfl⟩

/-- Claim C5 (code-bug evidence): for a ForLoop node, Mutate at the Expr
level and at the Statement level both return exactly the Statement the
ForLoop overload produced (spec Scenario B holds); but the universal form
of the claim fails at IfThenElse, whose branch returns the ForLoop
overload's result instead of the IfThenElse overload's result. -/
theorem mutate_result_propagation_bug :
    Expr.mutator_dispatch (HandlerArg.direct (optOutMutWire markMutator))
        forLoopNode = Except.ok (markerStmt 14)
      ∧ Statement.mutator_dispatch (HandlerArg.direct (optOutMutWire markMutator))
          (Statement.ofExpr forLoopNode) = Except.ok (markerStmt 14)
      ∧ Statement.mutator_dispatch (HandlerArg.direct (optOutMutWire markMutator))
          (Statement.ofExpr iteNode) = Except.ok (markerStmt 14)
      ∧ markMutator.mutateIfThenElse iteNode ≠ Except.ok (markerStmt 14) := by
  refine ⟨rfl, rfl, rfl, ?_⟩
  intro hfalse
  simp [markMutator, markerStmt, Statement.ofVal] at hfalse

/-- A Val node carrying a tag outside the Val enumeration. -/
def badVal : Val :=
  { valType := ValType.OutsideEnum, dataType := DataType.Float, name := 0 }

/-- Claim C3: whenever a node's tag matches no case of the dispatch switch
(a ValType outside the enumeration, a Scalar whose DataType is outside
Float and Int, an ExprType outside the enumeration, or a Statement that is
neither Val nor Expr), every dispatch entry of each of the three families
aborts with the fatal assertion message.  The result is the same for every
handler, so no handler overload influences or receives the call, and no
default result is substituted. -/
theorem unknown_tag_aborts_fatally {α : Type} (ha : HandlerArg (Handler α))
    (ca : HandlerArg (ConstHandler α)) (ma : HandlerArg Mutator)
    (v : Val) (e : Expr) (s : Statement) :
    (v.valType = ValType.OutsideEnum →
      Val.dispatch ha v = Except.error "Unknown valtype in dispatch!"
        ∧ Val.const_dispatch ca v = Except.error "Unknown valtype in dispatch!"
        ∧ Val.mutator_dispatch ma v = Except.error "Unknown valtype in dispatch!")
  ∧ (v.valType = ValType.Scalar → v.dataType = DataType.OutsideEnum →
      Val.dispatch ha v = Except.error "Unknown valtype in dispatch!"
        ∧ Val.const_dispatch ca v = Except.error "Unknown valtype in dispatch!"
        ∧ Val.mutator_dispatch ma v = Except.error "Unknown valtype in dispatch!")
  ∧ (e.exprTag = ExprTag.outsideEnum →
      Expr.dispatch ha e = Except.error "Unknown exprtype in dispatch!"
        ∧ Expr.const_dispatch ca e = Except.error "Unknown exprtype in dispatch!"
        ∧ Expr.mutator_dispatch ma e = Except.error "Unknown exprtype in dispatch!")
  ∧ (s.is_val = false → s.is_expr = false →
      Statement.dispatch ha s = Except.error "Unknown stmttype in dispatch!"
        ∧ Statement.const_dispatch ca s = Except.error "Unknown stmttype in dispatch!"
        ∧ Statement.mutator_dispatch ma s
            = Except.error "Unknown stmttype in dispatch!") := by
  refine ⟨?_, ?_, ?_, ?_⟩ <;> intros <;>
    simp_all [Val.dispatch, Val.const_dispatch, Val.mutator_dispatch,
      Expr.dispatch, Expr.const_dispatch, Expr.mutator_dispatch,
      Statement.dispatch, Statement.const_dispatch, Statement.mutator_dispatch]

/-- Witness for claim C3: a Val node with an out-of-enumeration tag makes
Visit dispatch return the fatal assertion error, for the probe handler. -/
theorem unknown_tag_aborts_fatally_witness :
    badVal.valType = ValType.OutsideEnum
      ∧ Val.dispatch (HandlerArg.direct probe) badVal
        = Except.error "Unknown valtype in dispatch!" :=
  ⟨rfl,
    ((unknown_tag_aborts_fatally (HandlerArg.direct probe)
      (HandlerArg.direct constProbe) (HandlerArg.direct markMutator)
      badVal iteNode (markerStmt 0)).1 rfl).1⟩

/-- Claim C4: for a node of either category, the Statement-level entry of
each dispatch family produces the identical result as the matching
category-level entry, for handlers with the base-class wiring of
dispatch.cpp (the Statement entry calls the handler's Val or Expr
overload, which the wiring sends back into the category-level
dispatcher). -/
theorem statement_entry_commutes {α : Type} (h : Handler α)
    (ch : ConstHandler α) (m : Mutator) (v : Val) (e : Expr) :
    Statement.dispatch (HandlerArg.direct (optOutWire h)) (Statement.ofVal v)
        = Val.dispatch (HandlerArg.direct (optOutWire h)) v
      ∧ Statement.dispatch (HandlerArg.direct (optOutWire h)) (Statement.ofExpr e)
        = Expr.dispatch (HandlerArg.direct (optOutWire h)) e
      ∧ Statement.const_dispatch (HandlerArg.direct (optInConstWire ch))
          (Statement.ofVal v)
        = Val.const_dispatch (HandlerArg.direct (optInConstWire ch)) v
      ∧ Statement.const_dispatch (HandlerArg.direct (optInConstWire ch))
          (Statement.ofExpr e)
        = Expr.const_dispatch (HandlerArg.direct (optInConstWire ch)) e
      ∧ Statement.mutator_dispatch (HandlerArg.direct (optOutMutWire m))
          (Statement.ofVal v)
        = Val.mutator_dispatch (HandlerArg.direct (optOutMutWire m)) v
      ∧ Statement.mutator_dispatch (HandlerArg.direct (optOutMutWire m))
          (Statement.ofExpr e)
        = Expr.mutator_dispatch (HandlerArg.direct (optOutMutWire m)) e := by
  refine ⟨?_, ?_, ?_, ?_, ?_, ?_⟩
  · rw [val_dispatch_wire_irrelevant]; rfl
  · rw [expr_dispatch_wire_irrelevant]; rfl
  · rw [val_const_dispatch_wire_irrelevant]; rfl
  · rw [expr_const_dispatch_wire_irrelevant]; rfl
  · rw [val_mutator_dispatch_wire_irrelevant]; rfl
  · rw [expr_mutator_dispatch_wire_irrelevant]; rfl

/-- Claim C6: passing the handler by value and passing it by pointer are
observationally equivalent: the ptr normalization makes every dispatch
entry of every family return the same result for both handler-passing
forms. -/
theorem handler_form_equiv {α : Type} (h : Handler α) (ch : ConstHandler α)
    (m : Mutator) (v : Val) (e : Expr) (s : Statement) :
    Val.dispatch (HandlerArg.direct h) v = Val.dispatch (HandlerArg.indirect h) v
      ∧ Expr.dispatch (HandlerArg.direct h) e
        = Expr.dispatch (HandlerArg.indirect h) e
      ∧ Statement.dispatch (HandlerArg.direct h) s
        = Statement.dispatch (HandlerArg.indirect h) s
      ∧ Val.const_dispatch (HandlerArg.direct ch) v
        = Val.const_dispatch (HandlerArg.indirect ch) v
      ∧ Expr.const_dispatch (HandlerArg.direct ch) e
        = Expr.const_dispatch (HandlerArg.indirect ch) e
      ∧ Statement.const_dispatch (HandlerArg.direct ch) s
        = Statement.const_dispatch (HandlerArg.indirect ch) s
      ∧ Val.mutator_dispatch (HandlerArg.direct m) v
        = Val.mutator_dispatch (HandlerArg.indirect m) v
      ∧ Expr.mutator_dispatch (HandlerArg.direct m) e
        = Expr.mutator_dispatch (HandlerArg.indirect m) e
      ∧ Statement.mutator_dispatch (HandlerArg.direct m) s
        = Statement.mutator_dispatch (HandlerArg.indirect m) s := by
  refine ⟨?_, ?_, ?_, ?_, ?_, ?_, ?_, ?_, ?_⟩ <;> rfl

/-- Claim C7: every path of the Const-Visit family that invokes a handler
invokes a field of the ConstHandler record (the read-only overload family)
matching the node's concrete kind, with the exact node passed unchanged.
ConstHandler has no mutating member and its fields are pure functions of
the node value, so no Const-Visit path can reach a mutating overload or
alter the node. -/
theorem const_dispatch_read_only_selection {α : Type}
    (ca : HandlerArg (ConstHandler α)) (v : Val) (e : Expr) (s : Statement) :
    (v.valType = ValType.IterDomain →
      Val.const_dispatch ca v = (ptr ca).handleIterDomain v)
  ∧ (v.valType = ValType.TensorDomain →
      Val.const_dispatch ca v = (ptr ca).handleTensorDomain v)
  ∧ (v.valType = ValType.Tensor →
      Val.const_dispatch ca v = (ptr ca).handleTensor v)
  ∧ (v.valType = ValType.TensorView →
      Val.const_dispatch ca v = (ptr ca).handleTensorView v)
  ∧ (v.valType = ValType.Scalar → v.dataType = DataType.Float →
      Val.const_dispatch ca v = (ptr ca).handleFloat v)
  ∧ (v.valType = ValType.Scalar → v.dataType = DataType.Int →
      Val.const_dispatch ca v = (ptr ca).handleInt v)
  ∧ (e.exprTag = ExprTag.known ExprType.Split →
      Expr.const_dispatch ca e = (ptr ca).handleSplit e)
  ∧ (e.exprTag = ExprTag.known ExprType.Merge →
      Expr.const_dispatch ca e = (ptr ca).handleMerge e)
  ∧ (e.exprTag = ExprTag.known ExprType.Reorder →
      Expr.const_dispatch ca e = (ptr ca).handleReorder e)
  ∧ (e.exprTag = ExprTag.known ExprType.UnaryOp →
      Expr.const_dispatch ca e = (ptr ca).handleUnaryOp e)
  ∧ (e.exprTag = ExprTag.known ExprType.BinaryOp →
      Expr.const_dispatch ca e = (ptr ca).handleBinaryOp e)
  ∧ (e.exprTag = ExprTag.known ExprType.ForLoop →
      Expr.const_dispatch ca e = (ptr ca).handleForLoop e)
  ∧ (e.exprTag = ExprTag.known ExprType.IfThenElse →
      Expr.const_dispatch ca e = (ptr ca).handleIfThenElse e)
  ∧ (s.is_val = true →
      Statement.const_dispatch ca s = (ptr ca).handleVal s.valView)
  ∧ (s.is_val = false → s.is_expr = true →
      Statement.const_dispatch ca s = (ptr ca).handleExpr s.exprView) := by
  refine ⟨?_, ?_, ?_, ?_, ?_, ?_, ?_, ?_, ?_, ?_, ?_, ?_, ?_, ?_, ?_⟩ <;>
    intros <;> simp_all [Val.const_dispatch, Expr.const_dispatch,
      Statement.const_dispatch]

/-- Witness for claim C7: an IterDomain node through Const-Visit reaches
exactly the const IterDomain overload of the const probe. -/
theorem const_dispatch_read_only_selection_witness :
    iterVal.valType = ValType.IterDomain
      ∧ Val.const_dispatch (HandlerArg.direct constProbe) iterVal
        = Except.ok Overload.onIterDomain :=
  ⟨rfl,
    (const_dispatch_read_only_selection (HandlerArg.direct constProbe)
      iterVal iteNode (markerStmt 0)).1 rfl⟩

/-- Claim C8: a single dispatch invocation performs at most one category
step and then exactly one concrete overload invocation.  With the tracing
handler (whose concrete overloads each record one trace entry and do not
re-enter the dispatcher), any Statement-level dispatch either succeeds
with a trace of length exactly one or aborts fatally; moreover no
dispatcher consults the handler's Statement-level overload, so the chain
never recurses back to the Statement entry.  All dispatchers are total
structurally terminating functions of the embedding, so every invocation
terminates. -/
theorem dispatch_single_overload_invocation {α : Type} (h : Handler α) :
    (∀ s : Statement,
        (∃ r, Statement.dispatch (HandlerArg.direct traceHandler) s
              = Except.ok r
            ∧ r.length = 1)
      ∨ (∃ msg, Statement.dispatch (HandlerArg.direct traceHandler) s
            = Except.error msg))
  ∧ (∀ (f : Statement → Except String α) (s : Statement),
      Statement.dispatch
          (HandlerArg.direct { h with handleStatement := f }) s
        = Statement.dispatch (HandlerArg.direct h) s) := by
  constructor
  · intro s
    obtain ⟨iv, ie, vv, ev⟩ := s
    obtain ⟨vt, dt, vn⟩ := vv
    obtain ⟨et, en⟩ := ev
    cases iv with
    | true =>
      cases vt <;> cases dt <;>
        first
          | exact Or.inl ⟨_, rfl, rfl⟩
          | exact Or.inr ⟨_, rfl⟩
    | false =>
      cases ie with
      | true =>
        cases et with
        | known t => cases t <;> exact Or.inl ⟨_, rfl, rfl⟩
        | outsideEnum => exact Or.inr ⟨_, rfl⟩
      | false => exact Or.inr ⟨_, rfl⟩
  · intro f s
    rfl

/-- A Statement violating the external mutual-exclusion invariant: both
category tests answer true. -/
def anomalousStmt : Statement :=
  { is_val := true, is_expr := true, valView := iterVal, exprView := iteNode }

/-- Claim C9: the Statement-level dispatchers test isVal before isExpr, so
a Statement for which both category tests hold deterministically takes the
Val path in all three families and never reaches the Expr overload. -/
theorem dual_flag_prefers_val_path {α : Type} (h : Handler α)
    (ch : ConstHandler α) (m : Mutator) (s : Statement)
    (hv : s.is_val = true) (he : s.is_expr = true) :
    Statement.dispatch (HandlerArg.direct h) s = h.handleVal s.valView
      ∧ Statement.const_dispatch (HandlerArg.direct ch) s
        = ch.handleVal s.valView
      ∧ Statement.mutator_dispatch (HandlerArg.direct m) s
        = m.mutateVal s.valView := by
  refine ⟨?_, ?_, ?_⟩ <;>
    simp [Statement.dispatch, Statement.const_dispatch,
      Statement.mutator_dispatch, hv, he, ptr]

/-- Witness for claim C9: the anomalous both-flags Statement takes the Val
path of Visit for the probe handler. -/
theorem dual_flag_prefers_val_path_witness :
    anomalousStmt.is_val = true ∧ anomalousStmt.is_expr = true
      ∧ Statement.dispatch (HandlerArg.direct probe) anomalousStmt
        = probe.handleVal anomalousStmt.valView :=
  ⟨rfl, rfl,
    (dual_flag_prefers_val_path probe constProbe markMutator anomalousStmt
      rfl rfl).1⟩

/-- Two Tensor-kind Val nodes agreeing on all tags but differing in the
remaining node state. -/
def tensorValA : Val :=
  { valType := ValType.Tensor, dataType := DataType.Float, name := 1 }

/-- Companion node to tensorValA with the same kind tag and different
non-tag state (and a different secondary tag, irrelevant off Scalar). -/
def tensorValB : Val :=
  { valType := ValType.Tensor, dataType := DataType.Int, name := 2 }

/-- Claim C10: overload selection is a function of the tags alone.  With
the probe handler (whose overloads report only their own identity), two
nodes with equal kind tags (and equal secondary tags when the kind is
Scalar) dispatch to the same overload, whatever their other state. -/
theorem dispatch_tag_deterministic (v₁ v₂ : Val) (e₁ e₂ : Expr) :
    (v₁.valType = v₂.valType →
      (v₁.valType = ValType.Scalar → v₁.dataType = v₂.dataType) →
      Val.dispatch (HandlerArg.direct probe) v₁
        = Val.dispatch (HandlerArg.direct probe) v₂)
  ∧ (e₁.exprTag = e₂.exprTag →
      Expr.dispatch (HandlerArg.direct probe) e₁
        = Expr.dispatch (HandlerArg.direct probe) e₂) := by
  constructor
  · intro hvt hdt
    obtain ⟨vt1, dt1, n1⟩ := v₁
    obtain ⟨vt2, dt2, n2⟩ := v₂
    have hvt2 : vt1 = vt2 := hvt
    subst hvt2
    cases vt1 with
    | IterDomain => rfl
    | TensorDomain => rfl
    | Tensor => rfl
    | TensorView => rfl
    | OutsideEnum => rfl
    | Scalar =>
      have hdt2 : dt1 = dt2 := hdt rfl
      subst hdt2
      cases dt1 <;> rfl
  · intro het
    obtain ⟨et1, m1⟩ := e₁
    obtain ⟨et2, m2⟩ := e₂
    have het2 : et1 = et2 := het
    subst het2
    cases et1 with
    | known t => cases t <;> rfl
    | outsideEnum => rfl

/-- Witness for claim C10: the two Tensor nodes differing off-tag dispatch
identically. -/
theorem dispatch_tag_deterministic_witness :
    tensorValA.valType = tensorValB.valType
      ∧ Val.dispatch (HandlerArg.direct probe) tensorValA
        = Val.dispatch (HandlerArg.direct probe) tensorValB :=
  ⟨rfl,
    (dispatch_tag_deterministic tensorValA tensorValB iteNode iteNode).1 rfl
      (fun hcontra => nomatch hcontra)⟩

end Fuser
